import Mathlib

/-!
Shallow embedding of `src/main.py` (Slack slash-command relay).

Modelling conventions:
- Python dicts read with `.get` become structures with `Option` fields.
- Python truthiness on optional strings (`if not x`) is `x = none` or `x = some ""`.
- The mutable header dicts (shared by aliasing between aggregated items) are
  modelled by an explicit store `HStore` of dictionaries addressed by `Nat`
  references, so that `.copy()` versus in-place mutation is observable.
- Outbound HTTP (`requests.get` inside `invoke_api_call`, `requests.post`) is
  an oracle `World`; every call the code makes is recorded in a `Call` trace.
  `invoke_api_call` collapses every failure to `None`, which the oracle models
  by returning `Option` responses directly.
- `json.dumps` string escaping is modelled for the two structurally
  significant characters (quote and backslash); `json.dumps` additionally
  u-escapes control and non-ASCII characters, which round-trip the same way.
-/

/-- One entry of `API_CONFIGS` in `main.py`. -/
structure ApiConfig where
  BaseUrl : String
  KeyName : String
  Region : String
deriving DecidableEq, Repr

/-- The `API_CONFIGS` list from `main.py`. -/
def API_CONFIGS : List ApiConfig :=
  [{ BaseUrl := "https://partners-us-east1.zeronetworks.com/api/v1/internal",
     KeyName := "us_east1_key", Region := "us-east1" },
   { BaseUrl := "https://partners-eu-west12.zeronetworks.com/api/v1/internal",
     KeyName := "eu_west12_key", Region := "eu-west12" }]

/-- `DEPLOYMENTS_URI = "/deployments"`. -/
def DEPLOYMENTS_URI : String := "/deployments"

/-- `os.environ.get("SLACK_CHANNEL", "C123ABC456")`. -/
def SLACK_CHANNEL (envVars : String → Option String) : String :=
  (envVars "SLACK_CHANNEL").getD "C123ABC456"

/-- Python `a or b` where `a` is an optional string and `b` a plain string:
the empty string is falsy. -/
def pyOr : Option String → String → String
  | some s, d => if s = "" then d else s
  | none, d => d

/-- Python `a or b` where both sides are optional strings. -/
def pyOrOpt : Option String → Option String → Option String
  | some s, b => if s = "" then b else some s
  | none, b => b

/-- Python `if not x` for an optional string: `None` and `""` are falsy. -/
def pyFalsy : Option String → Bool
  | some s => s = ""
  | none => true

/-- Rendering of an optional string inside an f-string: `None` prints as
"None" (this happens for `base_url` in `format_slack_message` when an item
carries no `_baseUrl`). -/
def pyRender : Option String → String
  | some s => s
  | none => "None"

/-- Store of mutable header dictionaries. A reference is an index; items of
one region share one reference, as the Python dicts share one object. -/
structure HStore where
  dicts : List (List (String × String))
deriving DecidableEq, Repr

/-- Dereference: read the dictionary behind a reference. -/
def HStore.get (st : HStore) (r : Nat) : List (String × String) :=
  (st.dicts[r]?).getD []

/-- Allocate a fresh dictionary, returning the new store and the reference. -/
def HStore.alloc (st : HStore) (d : List (String × String)) : HStore × Nat :=
  (⟨st.dicts ++ [d]⟩, st.dicts.length)

/-- Overwrite the dictionary behind a reference (Python in-place mutation). -/
def HStore.put (st : HStore) (r : Nat) (d : List (String × String)) : HStore :=
  ⟨st.dicts.set r d⟩

/-- Python `d[k] = v` on an association-list view of a dict: overwrite in
place if the key exists, else append at the end (insertion order). -/
def dictSet (d : List (String × String)) (k v : String) : List (String × String) :=
  if d.any (fun p => p.1 = k) then d.map (fun p => if p.1 = k then (k, v) else p)
  else d ++ [(k, v)]

/-- A deployment object as read by `format_slack_message`
(`dep.get('id')`, `dep.get('name')`, `dep.get('state')`). -/
structure Dep where
  id : Option String
  name : Option String
  state : Option String
deriving DecidableEq, Repr

/-- JSON body of the deployments call; the formatter only tests presence of
the key `detailedDeploymentsFormatted` and reads its list. -/
structure DepResponse where
  detailedDeploymentsFormatted : Option (List Dep)
deriving DecidableEq, Repr

/-- A raw environment item from the search API before the aggregation loop
tags it (fields read later by `format_slack_message`). -/
structure RawItem where
  id : Option String
  NameField : Option String
  nameField : Option String
deriving DecidableEq, Repr

/-- JSON body of the environments search; the handler only tests presence of
the key `items` and iterates its list. -/
structure EnvResponse where
  items : Option (List RawItem)
deriving DecidableEq, Repr

/-- An environment item after the aggregation loop has set
`item['region']`, `item['_baseUrl']` and `item['_headers']`. `NameField` and
`nameField` stand for the keys `Name` and `name` of the item dict;
`headersRef` is the reference to the shared mutable headers dict. -/
structure EnvItem where
  id : Option String
  NameField : Option String
  nameField : Option String
  region : Option String
  baseUrl : Option String
  headersRef : Option Nat
deriving DecidableEq, Repr

/-- One Slack block as built by `format_slack_message`. An `actions` block in
the source always holds exactly one button element, so the button fields are
inlined: text, value, action id, style. -/
inductive Block where
  | header (text : String)
  | sectionBlk (text : String)
  | actions (btnText : String) (value : String) (actionId : String) (style : String)
deriving DecidableEq, Repr

/-- The payload posted to the webhook: `{channel, text, blocks}`. -/
structure SlackMessage where
  channel : String
  text : String
  blocks : List Block
deriving DecidableEq, Repr

/-- One outbound HTTP call made by the code. `apiGet` records a
`invoke_api_call(base_url, endpoint, headers)` invocation (with `base_url`
rendered as the f-string renders it); `webhookPost` records the
`requests.post` to the Slack webhook. -/
inductive Call where
  | apiGet (baseUrl : String) (endpoint : String) (headers : List (String × String))
  | webhookPost (url : String) (payload : SlackMessage)
deriving DecidableEq, Repr

/-- Is a call a webhook POST? -/
def Call.isPost : Call → Bool
  | .webhookPost _ _ => true
  | .apiGet _ _ _ => false

/-- The external world: environment variables, the two JSON API responses
(as `invoke_api_call` would decode them, `none` on any failure), and whether
the webhook POST succeeds (`raise_for_status`). -/
structure World where
  envVars : String → Option String
  apiEnv : String → String → List (String × String) → Option EnvResponse
  apiDep : String → String → List (String × String) → Option DepResponse
  webhookOk : String → SlackMessage → Bool

/-! JSON values and serialization (`json.dumps` on the shapes the code
builds: flat objects and lists whose leaves are strings or `None`). -/

/-- A JSON leaf as it occurs in the button value: a string or `null`. -/
inductive Jv where
  | null
  | str (s : String)
deriving DecidableEq, Repr

/-- `json.dumps` escaping of one character inside a string literal
(quote and backslash; see the modelling note at the top of the file). -/
def escChar (c : Char) : List Char :=
  if c = '\"' then ['\\', '\"']
  else if c = '\\' then ['\\', '\\'] else [c]

/-- `json.dumps` escaping of a character sequence. -/
def escChars : List Char → List Char
  | [] => []
  | c :: cs => escChar c ++ escChars cs

/-- A JSON string literal, as characters: quote, escaped body, quote. -/
def jstrChars (s : String) : List Char :=
  '\"' :: (escChars s.data ++ ['\"'])

/-- A JSON leaf, as characters: a string literal or `null`. -/
def jvChars : Option String → List Char
  | some s => jstrChars s
  | none => ['n', 'u', 'l', 'l']

/-- The `Jv` value a leaf denotes. -/
def optJv : Option String → Jv
  | some s => Jv.str s
  | none => Jv.null

/-- One `"key": value` field of a serialized object, followed by `rest`
(which carries the separator or the closing brace). -/
def fieldChars (k : String) (v : List Char) (rest : List Char) : List Char :=
  '\"' :: (k.data ++ ('\"' :: ':' :: ' ' :: (v ++ rest)))

/-- Characters of
`json.dumps({"id": env_id, "region": ..., "deployment": ...})` with the
default `", "` and `": "` separators, as built for each button. -/
def buttonValueChars (envIdStr : String) (region depId : Option String) : List Char :=
  '\x7b' :: fieldChars "id" (jstrChars envIdStr)
    (',' :: ' ' :: fieldChars "region" (jvChars region)
      (',' :: ' ' :: fieldChars "deployment" (jvChars depId) ['\x7d']))

/-- The button value string (`json.dumps` of the three-field object). -/
def dumpsButtonValue (envIdStr : String) (region depId : Option String) : String :=
  ⟨buttonValueChars envIdStr region depId⟩

/-- JSON string body parser: consumes characters up to the closing quote,
undoing the escaping; returns the decoded body and the remaining input. -/
def parseStrBody : List Char → Option (List Char × List Char)
  | [] => none
  | c :: cs =>
    if c = '\"' then some ([], cs)
    else if c = '\\' then
      match cs with
      | [] => none
      | d :: ds =>
        if d = '\"' ∨ d = '\\' then
          match parseStrBody ds with
          | some (s, r) => some (d :: s, r)
          | none => none
        else none
    else
      match parseStrBody cs with
      | some (s, r) => some (c :: s, r)
      | none => none

/-- JSON leaf parser: a string literal or `null`. -/
def parseJv (inp : List Char) : Option (Jv × List Char) :=
  match inp with
  | [] => none
  | c :: rest =>
    if c = '\"' then
      match parseStrBody rest with
      | some (s, r) => some (Jv.str ⟨s⟩, r)
      | none => none
    else if c = 'n' then
      match rest with
      | 'u' :: 'l' :: 'l' :: r => some (Jv.null, r)
      | _ => none
    else none

/-- Parser for the fields of a serialized object (after the opening brace),
fuelled to make the recursion structural. Accepts the exact `", "` and
`": "` separators `json.dumps` emits and stops at the closing brace. -/
def parseFields : Nat → List Char → Option (List (String × Jv) × List Char)
  | 0, _ => none
  | _ + 1, [] => none
  | fuel + 1, c :: rest =>
    if c = '\"' then
      match parseStrBody rest with
      | none => none
      | some (k, rest1) =>
        match rest1 with
        | ':' :: ' ' :: rest2 =>
          match parseJv rest2 with
          | none => none
          | some (v, rest3) =>
            match rest3 with
            | '\x7d' :: rest4 => some ([(⟨k⟩, v)], rest4)
            | ',' :: ' ' :: rest4 =>
              match parseFields fuel rest4 with
              | some (fs, r) => some ((⟨k⟩, v) :: fs, r)
              | none => none
            | _ => none
        | _ => none
    else none

/-- JSON object decoder: an opening brace, fields, a closing brace, and
nothing after it; yields the association list of decoded fields. -/
def parseJsonObj (s : String) : Option (List (String × Jv)) :=
  match s.data with
  | [] => none
  | c :: rest =>
    if c = '\x7b' then
      match parseFields (rest.length + 1) rest with
      | some (fs, []) => some fs
      | _ => none
    else none

/-! `urlencode` / `quote_plus` for the environments search URI. -/

/-- Uppercase hex digit of a value below 16. -/
def hexDigit (n : Nat) : Char :=
  if n < 10 then Char.ofNat (48 + n) else Char.ofNat (55 + n)

/-- UTF-8 bytes of one character (as numbers). -/
def utf8Bytes (c : Char) : List Nat :=
  let n := c.toNat
  if n < 0x80 then [n]
  else if n < 0x800 then [0xC0 + n / 64, 0x80 + n % 64]
  else if n < 0x10000 then [0xE0 + n / 4096, 0x80 + n / 64 % 64, 0x80 + n % 64]
  else [0xF0 + n / 262144, 0x80 + n / 4096 % 64, 0x80 + n / 64 % 64, 0x80 + n % 64]

/-- Bytes `quote_plus` leaves unescaped: ASCII letters, digits, `_.-~`. -/
def safeByte (b : Nat) : Bool :=
  (65 ≤ b ∧ b ≤ 90) ∨ (97 ≤ b ∧ b ≤ 122) ∨ (48 ≤ b ∧ b ≤ 57) ∨
    b = 95 ∨ b = 46 ∨ b = 45 ∨ b = 126

/-- `quote_plus` on one byte: space becomes `+`, safe bytes pass through,
the rest become `%XX`. -/
def quotePlusByte (b : Nat) : List Char :=
  if b = 32 then ['+']
  else if safeByte b then [Char.ofNat b]
  else ['%', hexDigit (b / 16), hexDigit (b % 16)]

/-- `urllib.parse.quote_plus` over the UTF-8 bytes of a string. -/
def quote_plus (s : String) : String :=
  ⟨(s.data.flatMap fun c => (utf8Bytes c).flatMap quotePlusByte)⟩

/-- `json.dumps([{'id': 'name', 'includeValues': [text], 'excludeValues': []}])`
with the default separators. -/
def filtersJson (text : String) : String :=
  "[\x7b\"id\": \"name\", \"includeValues\": [" ++ String.mk (jstrChars text) ++
    "], \"excludeValues\": []\x7d]"

/-- The environments search URI the handler builds:
`/provisioning/environments/?` followed by
`urlencode({'_filters': ..., '_limit': 5})`. -/
def envUri (text : String) : String :=
  "/provisioning/environments/?" ++ "_filters=" ++ quote_plus (filtersJson text) ++
    "&_limit=5"

/-! `format_slack_message`. -/

/-- The fixed header block the formatter starts with. -/
def headerBlock : Block := Block.header "Select Environment to pull logs"

/-- `":football:" if env.get('region') == "us-east1" else ":soccer:"`. -/
def envEmoji (env : EnvItem) : String :=
  if env.region = some "us-east1" then ":football:" else ":soccer:"

/-- `env.get('Name') or env.get('name') or "Unknown Name"`. -/
def envName (env : EnvItem) : String :=
  pyOr (pyOrOpt env.NameField env.nameField) "Unknown Name"

/-- `env.get('id') or "Unknown ID"`. -/
def envId (env : EnvItem) : String :=
  pyOr env.id "Unknown ID"

/-- The per-environment section block:
`f"{emoji} `{env_name} : {env_id}`"` as mrkdwn text. -/
def envSection (env : EnvItem) : Block :=
  Block.sectionBlk (envEmoji env ++ " `" ++ envName env ++ " : " ++ envId env ++ "`")

/-- The headers used for the deployments call:
`env.get('_headers', {}).copy()` with `deployment_headers['zn-env-id'] = env_id`. -/
def depCallHeaders (store : HStore) (env : EnvItem) : List (String × String) :=
  dictSet (match env.headersRef with
           | some r => store.get r
           | none => []) "zn-env-id" (envId env)

/-- The action block built for one deployment: button text
`"Get Logs for {dep_name}"`, the JSON value, action id `get_logs`, and the
state-dependent style. -/
def mkDepBlock (env : EnvItem) (envIdStr : String) (dep : Dep) : Block :=
  Block.actions ("Get Logs for " ++ pyOr dep.name "Unnamed Deployment")
    (dumpsButtonValue envIdStr env.region dep.id)
    "get_logs"
    (if dep.state = some "Primary" then "primary" else "danger")

/-- The blocks one environment contributes after its section block, given
the decoded deployments response (`None` on client failure). -/
def depBlocks (env : EnvItem) (resp : Option DepResponse) : List Block :=
  match resp with
  | some dresp =>
    match dresp.detailedDeploymentsFormatted with
    | some deps =>
      if deps.isEmpty then
        [Block.sectionBlk "_No deployments found for this environment._"]
      else deps.map (mkDepBlock env (envId env))
    | none => [Block.sectionBlk "*No deployments found.*"]
  | none => [Block.sectionBlk "*Error fetching deployments.*"]

/-- State threaded through the formatter loop: the blocks built so far, the
store of header dicts, and the calls made so far. -/
structure FmtState where
  blocks : List Block
  store : HStore
  trace : List Call
deriving Repr

/-- The body of the `for env in environments` loop of `format_slack_message`:
emit the section block, copy the headers dict and set `zn-env-id` on the
copy, call the API client on `/deployments`, and emit the deployment blocks
(or the error / no-deployments section). -/
def formatEnvStep (w : World) (st : FmtState) (env : EnvItem) : FmtState :=
  let env_id := envId env
  let baseDict := match env.headersRef with
                  | some r => st.store.get r
                  | none => []
  let (store1, rNew) := st.store.alloc baseDict
  let deployment_headers := dictSet baseDict "zn-env-id" env_id
  let store2 := store1.put rNew deployment_headers
  let urlStr := pyRender env.baseUrl
  let resp := w.apiDep urlStr DEPLOYMENTS_URI deployment_headers
  { blocks := st.blocks ++ envSection env :: depBlocks env resp,
    store := store2,
    trace := st.trace ++ [Call.apiGet urlStr DEPLOYMENTS_URI deployment_headers] }

/-- `format_slack_message(environments)`: header block, then the loop over
environments; the result is the payload `{channel, text, blocks}` together
with the final store and the calls made. -/
def format_slack_message (w : World) (store : HStore) (environments : List EnvItem) :
    SlackMessage × HStore × List Call :=
  let fin := environments.foldl (formatEnvStep w)
    { blocks := [headerBlock], store := store, trace := [] }
  ({ channel := SLACK_CHANNEL w.envVars, text := "Get Support Details",
     blocks := fin.blocks }, fin.store, fin.trace)

/-! The aggregation loop and `slack_trigger`. -/

/-- Tagging of one raw item in the aggregation loop:
`item['region']`, `item['_baseUrl']`, `item['_headers']`. -/
def tagItem (config : ApiConfig) (r : Nat) (it : RawItem) : EnvItem :=
  { id := it.id, NameField := it.NameField, nameField := it.nameField,
    region := some config.Region, baseUrl := some config.BaseUrl,
    headersRef := some r }

/-- State threaded through the aggregation loop. -/
structure AggState where
  results : List EnvItem
  store : HStore
  trace : List Call
deriving Repr

/-- One iteration of `for config in API_CONFIGS`: skip if the credential is
falsy; otherwise build the headers dict (one shared object per region), call
the API client, and append the tagged items of a response carrying `items`. -/
def aggregateStep (w : World) (uri : String) (st : AggState) (config : ApiConfig) :
    AggState :=
  if pyFalsy (w.envVars config.KeyName) then st
  else
    let key := (w.envVars config.KeyName).getD ""
    let headers := [("Authorization", key), ("content-type", "application/json")]
    let (store1, r) := st.store.alloc headers
    let trace1 := st.trace ++ [Call.apiGet config.BaseUrl uri headers]
    match w.apiEnv config.BaseUrl uri headers with
    | some resp =>
      match resp.items with
      | some items =>
        { results := st.results ++ items.map (tagItem config r),
          store := store1, trace := trace1 }
      | none => { results := st.results, store := store1, trace := trace1 }
    | none => { results := st.results, store := store1, trace := trace1 }

/-- The empty initial aggregation state. -/
def initAgg : AggState := { results := [], store := ⟨[]⟩, trace := [] }

/-- The whole aggregation loop over `API_CONFIGS`. -/
def aggregate (w : World) (uri : String) : AggState :=
  API_CONFIGS.foldl (aggregateStep w uri) initAgg

/-- The JSON body of the handler response (`response_type`, `text`) and the
HTTP status. -/
structure TriggerResult where
  responseType : String
  text : String
  status : Nat
deriving DecidableEq, Repr

/-- The usage message returned when `text` is falsy. -/
def usageMsg : String :=
  "Please provide an environment name to search for. Usage: `/your-command <env-name>`"

/-- The ephemeral no-results message. -/
def noResultsMsg (text : String) : String :=
  "No results found for \x27" ++ text ++ "\x27 in any region."

/-- The server-misconfiguration message for a missing webhook URL. -/
def misconfigMsg : String :=
  "Error: The Slack webhook is not configured on the server."

/-- The ephemeral confirmation naming the match count. -/
def foundMsg (n : Nat) : String :=
  "Found " ++ Nat.repr n ++ " matching environments. Details sent to the designated channel."

/-- The generic message of the top-level exception handler. -/
def genericErrorMsg : String :=
  "A critical error occurred while processing your request."

/-- `slack_trigger`, given the extracted `text` form field
(`body.get('text', [None])[0]`; `parse_qs` drops blank values, so an absent
or blank field both arrive as `none`). Returns the response and the trace of
outbound calls. A failing webhook POST (`raise_for_status`) is the one
exception reaching the top-level handler in this model. -/
def slack_trigger (w : World) (textField : Option String) : TriggerResult × List Call :=
  if pyFalsy textField then
    ({ responseType := "ephemeral", text := usageMsg, status := 200 }, [])
  else
    let text := textField.getD ""
    let env_uri := envUri text
    let agg := aggregate w env_uri
    if agg.results.isEmpty then
      ({ responseType := "ephemeral", text := noResultsMsg text, status := 200 },
        agg.trace)
    else
      let fmt := format_slack_message w agg.store agg.results
      let slack_message := fmt.1
      let ftrace := fmt.2.2
      if pyFalsy (w.envVars "SLACK_WEBHOOK_URL") then
        ({ responseType := "ephemeral", text := misconfigMsg, status := 500 },
          agg.trace ++ ftrace)
      else
        let url := (w.envVars "SLACK_WEBHOOK_URL").getD ""
        let trace := agg.trace ++ ftrace ++ [Call.webhookPost url slack_message]
        if w.webhookOk url slack_message then
          ({ responseType := "ephemeral", text := foundMsg agg.results.length,
             status := 200 }, trace)
        else
          ({ responseType := "ephemeral", text := genericErrorMsg, status := 500 },
            trace)

/-! Accessors on blocks and calls, used to state the claims. -/

/-- The style of the button of an actions block. -/
def Block.styleOf : Block → Option String
  | .actions _ _ _ s => some s
  | _ => none

/-- The value string of the button of an actions block. -/
def Block.valueOf : Block → Option String
  | .actions _ v _ _ => some v
  | _ => none

/-- Is this a header block? -/
def Block.isHeader : Block → Bool
  | .header _ => true
  | _ => false

/-- Is this a section block? -/
def Block.isSection : Block → Bool
  | .sectionBlk _ => true
  | _ => false

/-- Is this an actions block? -/
def Block.isActions : Block → Bool
  | .actions _ _ _ _ => true
  | _ => false

/-- The payload of a webhook POST call. -/
def Call.postPayload : Call → Option SlackMessage
  | .webhookPost _ m => some m
  | .apiGet _ _ _ => none

/-! Concrete worlds used by the scenario claim and the witnesses. -/

/-- A raw environment item returned by the search API. -/
def rawA : RawItem := { id := some "env-1", NameField := some "prod-env", nameField := none }

/-- Two deployments, states `Primary` and `Secondary`. -/
def depPrimary : Dep := { id := some "d1", name := some "alpha", state := some "Primary" }

/-- See `depPrimary`. -/
def depSecondary : Dep := { id := some "d2", name := some "beta", state := some "Secondary" }

/-- The us-east1 search response: one item. -/
def envRespOne : EnvResponse := { items := some [rawA] }

/-- The empty search response. -/
def envRespNone : EnvResponse := { items := some [] }

/-- The deployments response with the two deployments. -/
def depRespAB : DepResponse := { detailedDeploymentsFormatted := some [depPrimary, depSecondary] }

/-- A world where both credentials and the webhook URL are set, the us-east1
region returns exactly one environment, the other region returns none, the
deployments call returns `depPrimary` and `depSecondary`, and the POST
succeeds. -/
def wFull : World :=
  { envVars := fun s =>
      if s = "us_east1_key" then some "key-1"
      else if s = "eu_west12_key" then some "key-2"
      else if s = "SLACK_WEBHOOK_URL" then some "https://hooks.example/T0" else none,
    apiEnv := fun base _ _ =>
      if base = "https://partners-us-east1.zeronetworks.com/api/v1/internal" then
        some envRespOne
      else some envRespNone,
    apiDep := fun _ _ _ => some depRespAB,
    webhookOk := fun _ _ => true }

/-- Like `wFull` but with no webhook URL configured. -/
def wNoHook : World :=
  { envVars := fun s =>
      if s = "us_east1_key" then some "key-1"
      else if s = "eu_west12_key" then some "key-2" else none,
    apiEnv := fun base _ _ =>
      if base = "https://partners-us-east1.zeronetworks.com/api/v1/internal" then
        some envRespOne
      else some envRespNone,
    apiDep := fun _ _ _ => some depRespAB,
    webhookOk := fun _ _ => true }

/-- A world with no environment variables set and failing APIs. -/
def wQuiet : World :=
  { envVars := fun _ => none,
    apiEnv := fun _ _ _ => none,
    apiDep := fun _ _ _ => none,
    webhookOk := fun _ _ => false }

/-- The payload the handler posts in the scenario world (first webhook POST
of the call trace). -/
def c1Posted : Option SlackMessage :=
  ((slack_trigger wFull (some "prod")).2.filterMap Call.postPayload).head?

/-- A tagged environment item carries a region, a base URL, valid headers.
`taggedOk w store item` says the item is tagged with the label, base URL and
headers dict of a configured region whose credential is set. -/
def taggedOk (w : World) (store : HStore) (item : EnvItem) : Prop :=
  ∃ cfg ∈ API_CONFIGS, ∃ key : String,
    w.envVars cfg.KeyName = some key ∧ key ≠ "" ∧
    item.region = some cfg.Region ∧ item.baseUrl = some cfg.BaseUrl ∧
    ∃ r : Nat, item.headersRef = some r ∧ r < store.dicts.length ∧
      store.get r = [("Authorization", key), ("content-type", "application/json")]

/-! Parsing the serialized button value back (round-trip helper lemmas). -/

/-- Escaping a body and closing the quote parses back to the body. -/
theorem parseStrBody_esc (s : List Char) (rest : List Char) :
    parseStrBody (escChars s ++ '\"' :: rest) = some (s, rest) := by
  induction s with
  | nil =>
    rw [escChars, List.nil_append, parseStrBody.eq_def]
    simp
  | cons c cs ih =>
    by_cases h1 : c = '\"'
    · subst h1
      rw [escChars, escChar, if_pos rfl, List.cons_append, List.cons_append,
        parseStrBody.eq_def]
      simp [ih]
    · by_cases h2 : c = '\\'
      · subst h2
        rw [escChars, escChar, if_neg (by decide), if_pos rfl, List.cons_append,
          List.cons_append, parseStrBody.eq_def]
        simp [ih]
      · rw [escChars, escChar, if_neg h1, if_neg h2, List.cons_append,
          List.nil_append, parseStrBody.eq_def]
        simp [h1, h2, ih]

/-- A serialized leaf parses back to the leaf it denotes. -/
theorem parseJv_leaf (v : Option String) (rest : List Char) :
    parseJv (jvChars v ++ rest) = some (optJv v, rest) := by
  cases v with
  | none =>
    rw [jvChars, optJv]
    simp [parseJv]
  | some s =>
    rw [jvChars, jstrChars, optJv, List.cons_append, List.append_assoc,
      List.singleton_append]
    simp [parseJv, parseStrBody_esc]

/-- Parsing one serialized field with an escape-free key. -/
theorem parseFields_field (f : Nat) (k : List Char) (hk : escChars k = k)
    (v : Option String) (rest : List Char) :
    parseFields (f + 1) ('\"' :: (k ++ ('\"' :: ':' :: ' ' :: (jvChars v ++ rest)))) =
      match rest with
      | '\x7d' :: r4 => some ([(⟨k⟩, optJv v)], r4)
      | ',' :: ' ' :: r4 =>
        match parseFields f r4 with
        | some (fs, r) => some ((⟨k⟩, optJv v) :: fs, r)
        | none => none
      | _ => none := by
  rw [parseFields.eq_def]
  simp only [if_true]
  conv_lhs => rw [← hk]
  rw [parseStrBody_esc]
  simp only []
  rw [parseJv_leaf]

/-- Parsing the three serialized button-value fields. -/
theorem parseFields_button (f : Nat) (i : String) (r d : Option String) :
    parseFields (f + 3)
      (fieldChars "id" (jstrChars i)
        (',' :: ' ' :: fieldChars "region" (jvChars r)
          (',' :: ' ' :: fieldChars "deployment" (jvChars d) ['\x7d']))) =
      some ([("id", Jv.str i), ("region", optJv r), ("deployment", optJv d)], []) := by
  have hid : escChars "id".data = "id".data := by decide
  have hreg : escChars "region".data = "region".data := by decide
  have hdep : escChars "deployment".data = "deployment".data := by decide
  have h1 : jstrChars i = jvChars (some i) := rfl
  rw [fieldChars, fieldChars, fieldChars, h1]
  rw [show f + 3 = (f + 2) + 1 from rfl, parseFields_field (f + 2) "id".data hid]
  simp only []
  rw [show f + 2 = (f + 1) + 1 from rfl, parseFields_field (f + 1) "region".data hreg]
  simp only []
  rw [parseFields_field f "deployment".data hdep]
  rfl

/-- Decoding `json.dumps({"id": ..., "region": ..., "deployment": ...})`
recovers exactly the three fields. -/
theorem parseJsonObj_dumps (i : String) (r d : Option String) :
    parseJsonObj (dumpsButtonValue i r d) =
      some [("id", Jv.str i), ("region", optJv r), ("deployment", optJv d)] := by
  have hdata : (dumpsButtonValue i r d).data = buttonValueChars i r d := rfl
  rw [parseJsonObj, hdata, buttonValueChars]
  simp only [if_true]
  set tail := fieldChars "id" (jstrChars i)
    (',' :: ' ' :: fieldChars "region" (jvChars r)
      (',' :: ' ' :: fieldChars "deployment" (jvChars d) ['\x7d'])) with htail
  have hlen : tail.length + 1 = (tail.length - 2) + 3 := by
    rw [htail, fieldChars]
    simp [List.length_append]
  rw [hlen, parseFields_button]

/-! Store, trace and aggregation helper lemmas. -/

theorem HStore.get_append (st : HStore) (t : List (List (String × String)))
    (r : Nat) (h : r < st.dicts.length) :
    (HStore.mk (st.dicts ++ t)).get r = st.get r := by
  simp [HStore.get, List.getElem?_append_left h]

theorem fmt_store_dicts (w : World) (st : FmtState) (env : EnvItem) :
    (formatEnvStep w st env).store.dicts =
      st.store.dicts ++ [depCallHeaders st.store env] := by
  simp only [formatEnvStep, HStore.alloc, HStore.put, depCallHeaders]
  rw [List.set_append_right _ _ (le_refl _)]
  simp

theorem fmt_foldl_store_get (w : World) (envs : List EnvItem) :
    ∀ (st : FmtState) (r : Nat), r < st.store.dicts.length →
      ((envs.foldl (formatEnvStep w) st).store).get r = st.store.get r := by
  induction envs with
  | nil => intro st r h; rfl
  | cons env envs ih =>
    intro st r h
    rw [List.foldl_cons]
    have hlen : r < (formatEnvStep w st env).store.dicts.length := by
      rw [fmt_store_dicts]
      simp
      omega
    rw [ih (formatEnvStep w st env) r hlen]
    have := fmt_store_dicts w st env
    calc (formatEnvStep w st env).store.get r
        = (HStore.mk (st.store.dicts ++ [depCallHeaders st.store env])).get r := by
          rw [← this]
      _ = st.store.get r := HStore.get_append _ _ _ h

theorem pyFalsy_eq_false (x : Option String) :
    pyFalsy x = false ↔ ∃ s, x = some s ∧ s ≠ "" := by
  cases x <;> simp [pyFalsy]

theorem agg_step_skip (w : World) (uri : String) (st : AggState) (cfg : ApiConfig)
    (h : pyFalsy (w.envVars cfg.KeyName) = true) :
    aggregateStep w uri st cfg = st := by
  simp [aggregateStep, h]


theorem agg_step_results (w : World) (uri : String) (st : AggState) (cfg : ApiConfig) :
    ∀ item ∈ (aggregateStep w uri st cfg).results,
      item ∈ st.results ∨
        (item.region = some cfg.Region ∧ item.baseUrl = some cfg.BaseUrl) := by
  intro item hmem
  rw [aggregateStep] at hmem
  split at hmem
  · exact Or.inl hmem
  · simp only [HStore.alloc] at hmem
    split at hmem
    · split at hmem
      · simp only [AggState.mk.injEq] at hmem
        simp at hmem
        rcases hmem with hl | ⟨it, _, rfl⟩
        · exact Or.inl hl
        · exact Or.inr ⟨rfl, rfl⟩
      · exact Or.inl hmem
    · exact Or.inl hmem

theorem agg_step_trace (w : World) (uri : String) (st : AggState) (cfg : ApiConfig) :
    ∀ c ∈ (aggregateStep w uri st cfg).trace,
      c ∈ st.trace ∨ ∃ h, c = Call.apiGet cfg.BaseUrl uri h := by
  intro c hmem
  rw [aggregateStep] at hmem
  split at hmem
  · exact Or.inl hmem
  · simp only [HStore.alloc] at hmem
    split at hmem
    · split at hmem
      · simp at hmem
        rcases hmem with hl | rfl
        · exact Or.inl hl
        · exact Or.inr ⟨_, rfl⟩
      · simp at hmem
        rcases hmem with hl | rfl
        · exact Or.inl hl
        · exact Or.inr ⟨_, rfl⟩
    · simp at hmem
      rcases hmem with hl | rfl
      · exact Or.inl hl
      · exact Or.inr ⟨_, rfl⟩

theorem agg_step_store (w : World) (uri : String) (st : AggState) (cfg : ApiConfig) :
    ∃ t, (aggregateStep w uri st cfg).store.dicts = st.store.dicts ++ t := by
  rw [aggregateStep]
  split
  · exact ⟨[], by simp⟩
  · simp only [HStore.alloc]
    split
    · split
      · exact ⟨_, rfl⟩
      · exact ⟨_, rfl⟩
    · exact ⟨_, rfl⟩

theorem taggedOk_mono (w : World) (st : HStore) (t : List (List (String × String)))
    (item : EnvItem) (h : taggedOk w st item) : taggedOk w ⟨st.dicts ++ t⟩ item := by
  obtain ⟨cfg, hcfg, key, hk, hk2, hreg, hurl, r, hr, hlt, hget⟩ := h
  refine ⟨cfg, hcfg, key, hk, hk2, hreg, hurl, r, hr, ?_, ?_⟩
  · simp only [List.length_append]
    omega
  · rw [HStore.get_append st t r hlt]
    exact hget

theorem agg_step_valid (w : World) (uri : String) (st : AggState) (cfg : ApiConfig)
    (key : String) (hkey : w.envVars cfg.KeyName = some key) (hne : key ≠ "") :
    aggregateStep w uri st cfg =
      (let headers : List (String × String) :=
        [("Authorization", key), ("content-type", "application/json")]
      let store1 : HStore := ⟨st.store.dicts ++ [headers]⟩
      let trace1 := st.trace ++ [Call.apiGet cfg.BaseUrl uri headers]
      match w.apiEnv cfg.BaseUrl uri headers with
      | some resp =>
        match resp.items with
        | some items =>
          { results := st.results ++ items.map (tagItem cfg st.store.dicts.length),
            store := store1, trace := trace1 }
        | none => { results := st.results, store := store1, trace := trace1 }
      | none => { results := st.results, store := store1, trace := trace1 }) := by
  simp [aggregateStep, pyFalsy, hkey, hne, HStore.alloc]

theorem agg_step_tagged (w : World) (uri : String) (st : AggState) (cfg : ApiConfig)
    (hcfg : cfg ∈ API_CONFIGS)
    (hst : ∀ item ∈ st.results, taggedOk w st.store item) :
    ∀ item ∈ (aggregateStep w uri st cfg).results,
      taggedOk w (aggregateStep w uri st cfg).store item := by
  intro item hmem
  by_cases h : pyFalsy (w.envVars cfg.KeyName)
  · rw [agg_step_skip w uri st cfg h] at hmem ⊢
    exact hst item hmem
  · simp only [Bool.not_eq_true] at h
    obtain ⟨key, hkey, hne⟩ := (pyFalsy_eq_false _).1 h
    rw [agg_step_valid w uri st cfg key hkey hne] at hmem ⊢
    simp only [] at hmem ⊢
    revert hmem
    rcases hresp : w.apiEnv cfg.BaseUrl uri
        [("Authorization", key), ("content-type", "application/json")] with _ | resp <;>
      simp only [] <;> intro hmem
    · exact taggedOk_mono w st.store _ item (hst item hmem)
    · rcases hitems : resp.items with _ | items <;> simp only [hitems] <;>
        simp only [hitems] at hmem
      · exact taggedOk_mono w st.store _ item (hst item hmem)
      · simp only [List.mem_append, List.mem_map] at hmem
        rcases hmem with hl | ⟨it, _, rfl⟩
        · exact taggedOk_mono w st.store _ item (hst item hl)
        · refine ⟨cfg, hcfg, key, hkey, hne, rfl, rfl, st.store.dicts.length, rfl, ?_, ?_⟩
          · simp
          · simp [HStore.get, List.getElem?_concat_length]

/-- Claim C2: the button built for a deployment has style "primary" exactly
when the deployment state field is the string "Primary"; any other value or
an absent state yields "danger". -/
theorem c2_button_style (env : EnvItem) (envIdStr : String) (dep : Dep) :
    (mkDepBlock env envIdStr dep).styleOf =
       some (if dep.state = some "Primary" then "primary" else "danger") ∧
    ((mkDepBlock env envIdStr dep).styleOf = some "primary" ↔
       dep.state = some "Primary") := by
  refine ⟨rfl, ?_⟩
  by_cases h : dep.state = some "Primary"
  · simp [mkDepBlock, Block.styleOf, h]
  · simp [mkDepBlock, Block.styleOf, h]

/-- Claim C3: JSON-decoding the value string embedded in a deployment
button yields exactly the environment id, the region and the deployment id
used to construct it, and no other fields. -/
theorem c3_value_roundtrip (env : EnvItem) (envIdStr : String) (dep : Dep) :
    (mkDepBlock env envIdStr dep).valueOf =
      some (dumpsButtonValue envIdStr env.region dep.id) ∧
    parseJsonObj (dumpsButtonValue envIdStr env.region dep.id) =
      some [("id", Jv.str envIdStr), ("region", optJv env.region),
            ("deployment", optJv dep.id)] :=
  ⟨rfl, parseJsonObj_dumps envIdStr env.region dep.id⟩

theorem fmt_step_trace (w : World) (st : FmtState) (env : EnvItem) :
    (formatEnvStep w st env).trace =
      st.trace ++ [Call.apiGet (pyRender env.baseUrl) DEPLOYMENTS_URI
        (depCallHeaders st.store env)] := rfl

theorem fmt_step_blocks (w : World) (st : FmtState) (env : EnvItem) :
    (formatEnvStep w st env).blocks =
      st.blocks ++ envSection env ::
        depBlocks env (w.apiDep (pyRender env.baseUrl) DEPLOYMENTS_URI
          (depCallHeaders st.store env)) := rfl

theorem fmt_blocks_prefix (w : World) (envs : List EnvItem) :
    ∀ st : FmtState, st.blocks <+: (envs.foldl (formatEnvStep w) st).blocks := by
  induction envs with
  | nil => intro st; exact List.prefix_refl _
  | cons env envs ih =>
    intro st
    rw [List.foldl_cons]
    refine List.IsPrefix.trans ?_ (ih (formatEnvStep w st env))
    rw [fmt_step_blocks]
    exact List.prefix_append _ _

theorem fmt_foldl_no_post (w : World) (envs : List EnvItem) :
    ∀ st : FmtState, (∀ c ∈ st.trace, c.isPost = false) →
      ∀ c ∈ (envs.foldl (formatEnvStep w) st).trace, c.isPost = false := by
  induction envs with
  | nil => intro st h; exact h
  | cons env envs ih =>
    intro st h
    rw [List.foldl_cons]
    refine ih _ ?_
    intro c hc
    rw [fmt_step_trace] at hc
    rcases List.mem_append.1 hc with hl | hr
    · exact h c hl
    · rw [List.mem_singleton] at hr
      subst hr
      rfl

theorem fmt_trace_no_post (w : World) (store : HStore) (envs : List EnvItem) :
    ∀ c ∈ (format_slack_message w store envs).2.2, c.isPost = false := by
  intro c hc
  exact fmt_foldl_no_post w envs
    { blocks := [headerBlock], store := store, trace := [] } (by simp) c hc

theorem agg_foldl_no_post (w : World) (uri : String) (cfgs : List ApiConfig) :
    ∀ st : AggState, (∀ c ∈ st.trace, c.isPost = false) →
      ∀ c ∈ (cfgs.foldl (aggregateStep w uri) st).trace, c.isPost = false := by
  induction cfgs with
  | nil => intro st h; exact h
  | cons cfg cfgs ih =>
    intro st h c hc
    refine ih _ ?_ c hc
    intro c' hc'
    rcases agg_step_trace w uri st cfg c' hc' with hl | ⟨hh, rfl⟩
    · exact h c' hl
    · rfl

theorem agg_trace_no_post (w : World) (uri : String) :
    ∀ c ∈ (aggregate w uri).trace, c.isPost = false := by
  intro c hc
  exact agg_foldl_no_post w uri API_CONFIGS initAgg (by simp [initAgg]) c hc

/-- Claim C7: an absent or empty text form field yields a 200 ephemeral
usage message and an empty call trace (no region query, no deployments
query, no webhook POST). -/
theorem c7_usage (w : World) (t : Option String) (h : t = none ∨ t = some "") :
    slack_trigger w t =
      ({ responseType := "ephemeral", text := usageMsg, status := 200 }, []) := by
  rcases h with rfl | rfl <;> rfl

/-- Claim C4: when the aggregation yields zero results, the handler
returns 200 with the ephemeral no-results message, its trace is exactly the
aggregation trace, and that trace contains no webhook POST. -/
theorem c4_no_results (w : World) (text : String) (htext : text ≠ "")
    (hempty : (aggregate w (envUri text)).results = []) :
    slack_trigger w (some text) =
      ({ responseType := "ephemeral", text := noResultsMsg text, status := 200 },
        (aggregate w (envUri text)).trace) ∧
    ∀ c ∈ (slack_trigger w (some text)).2, c.isPost = false := by
  have hfal : pyFalsy (some text) = false := by simp [pyFalsy, htext]
  have h1 : slack_trigger w (some text) =
      ({ responseType := "ephemeral", text := noResultsMsg text, status := 200 },
        (aggregate w (envUri text)).trace) := by
    rw [slack_trigger, if_neg (by simp [hfal])]
    simp only [Option.getD_some]
    rw [if_pos (by simp [hempty])]
  refine ⟨h1, ?_⟩
  rw [h1]
  exact agg_trace_no_post w (envUri text)

/-- Claim C6: when the webhook URL variable is unset (or empty) and the
aggregation yields at least one result, the handler returns 500 with the
server-misconfiguration ephemeral message and no webhook POST appears in
the trace. -/
theorem c6_no_webhook (w : World) (text : String) (htext : text ≠ "")
    (hres : (aggregate w (envUri text)).results ≠ [])
    (hhook : pyFalsy (w.envVars "SLACK_WEBHOOK_URL") = true) :
    slack_trigger w (some text) =
      ({ responseType := "ephemeral", text := misconfigMsg, status := 500 },
        (aggregate w (envUri text)).trace ++
          (format_slack_message w (aggregate w (envUri text)).store
            (aggregate w (envUri text)).results).2.2) ∧
    ∀ c ∈ (slack_trigger w (some text)).2, c.isPost = false := by
  have hfal : pyFalsy (some text) = false := by simp [pyFalsy, htext]
  have h1 : slack_trigger w (some text) =
      ({ responseType := "ephemeral", text := misconfigMsg, status := 500 },
        (aggregate w (envUri text)).trace ++
          (format_slack_message w (aggregate w (envUri text)).store
            (aggregate w (envUri text)).results).2.2) := by
    rw [slack_trigger, if_neg (by simp [hfal])]
    simp only [Option.getD_some]
    rw [if_neg (by simp [hres]), if_pos (by simp [hhook])]
  refine ⟨h1, ?_⟩
  rw [h1]
  intro c hc
  rcases List.mem_append.1 hc with hl | hr
  · exact agg_trace_no_post w (envUri text) c hl
  · exact fmt_trace_no_post w _ _ c hr

/-- Claim C5: a configured region whose credential variable is unset or
empty contributes no items tagged with its region label, and no API call to
its base URL is issued by the aggregation loop. -/
theorem c5_region_skipped (w : World) (uri : String) (cfg : ApiConfig)
    (hcfg : cfg ∈ API_CONFIGS)
    (hkey : pyFalsy (w.envVars cfg.KeyName) = true) :
    (∀ item ∈ (aggregate w uri).results, item.region ≠ some cfg.Region) ∧
    (∀ (e : String) (hs : List (String × String)),
      Call.apiGet cfg.BaseUrl e hs ∉ (aggregate w uri).trace) := by
  have hagg : aggregate w uri =
      aggregateStep w uri (aggregateStep w uri initAgg (API_CONFIGS.get ⟨0, by decide⟩))
        (API_CONFIGS.get ⟨1, by decide⟩) := rfl
  simp only [API_CONFIGS] at hcfg
  rcases List.mem_pair.1 hcfg with rfl | rfl
  · -- credential of the first region missing: its loop iteration is skipped
    rw [hagg, agg_step_skip w uri initAgg _ (by exact hkey)]
    constructor
    · intro item hmem
      rcases agg_step_results w uri initAgg _ item hmem with hl | ⟨hreg, _⟩
      · simp [initAgg] at hl
      · rw [hreg]
        decide
    · intro e hs hmem
      rcases agg_step_trace w uri initAgg _ _ hmem with hl | ⟨h, heq⟩
      · simp [initAgg] at hl
      · simp only [Call.apiGet.injEq] at heq
        exact absurd heq.1 (by decide)
  · rw [hagg, agg_step_skip w uri _ _ (by exact hkey)]
    constructor
    · intro item hmem
      rcases agg_step_results w uri initAgg _ item hmem with hl | ⟨hreg, _⟩
      · simp [initAgg] at hl
      · rw [hreg]
        decide
    · intro e hs hmem
      rcases agg_step_trace w uri initAgg _ _ hmem with hl | ⟨h, heq⟩
      · simp [initAgg] at hl
      · simp only [Call.apiGet.injEq] at heq
        exact absurd heq.1 (by decide)

/-- Claim C8: every aggregated environment item is tagged with the region
label, base URL, and a reference to the auth-headers dict of a configured
region whose credential was set. -/
theorem c8_tagged (w : World) (uri : String) :
    ∀ item ∈ (aggregate w uri).results, taggedOk w (aggregate w uri).store item := by
  have h0 : ∀ item ∈ initAgg.results, taggedOk w initAgg.store item := by
    simp [initAgg]
  have h1 := agg_step_tagged w uri initAgg (API_CONFIGS.get ⟨0, by decide⟩)
    (by decide) h0
  have h2 := agg_step_tagged w uri
    (aggregateStep w uri initAgg (API_CONFIGS.get ⟨0, by decide⟩))
    (API_CONFIGS.get ⟨1, by decide⟩) (by decide) h1
  exact h2

/-- Claim C9: per environment, the formatter emits the section block and
then, by case on the deployments call: the error section on client failure,
the no-deployments section when the key is absent or the list is empty;
missing name/id degrade to "Unknown Name"/"Unknown ID"; and the blocks of
any processed environment stay a prefix of the final output, so one
environment never aborts the rest. -/
theorem c9_per_env (w : World) (st : FmtState) (env : EnvItem)
    (oid reg bu : Option String) (hr : Option Nat) (nm1 nm2 : Option String) :
    (formatEnvStep w st env).blocks =
        st.blocks ++ envSection env ::
          depBlocks env (w.apiDep (pyRender env.baseUrl) DEPLOYMENTS_URI
            (depCallHeaders st.store env)) ∧
    depBlocks env none = [Block.sectionBlk "*Error fetching deployments.*"] ∧
    depBlocks env (some { detailedDeploymentsFormatted := none }) =
      [Block.sectionBlk "*No deployments found.*"] ∧
    depBlocks env (some { detailedDeploymentsFormatted := some [] }) =
      [Block.sectionBlk "_No deployments found for this environment._"] ∧
    envName { id := oid, NameField := none, nameField := none, region := reg,
              baseUrl := bu, headersRef := hr } = "Unknown Name" ∧
    envId { id := none, NameField := nm1, nameField := nm2, region := reg,
            baseUrl := bu, headersRef := hr } = "Unknown ID" ∧
    (∀ (envs : List EnvItem) (st0 : FmtState),
      (formatEnvStep w st0 env).blocks <+:
        ((env :: envs).foldl (formatEnvStep w) st0).blocks) := by
  refine ⟨rfl, rfl, rfl, rfl, rfl, rfl, ?_⟩
  intro envs st0
  rw [List.foldl_cons]
  exact fmt_blocks_prefix w envs (formatEnvStep w st0 env)

/-- Claim C10: formatting leaves every pre-existing headers dict in the
store unchanged (the copied dict gets the zn-env-id key; the stored one
never does), while the deployments call itself uses the copy with
zn-env-id injected. -/
theorem c10_headers_frame (w : World) (store : HStore) (envs : List EnvItem)
    (r : Nat) (hr : r < store.dicts.length) :
    ((format_slack_message w store envs).2.1).get r = store.get r ∧
    ∀ (st : FmtState) (env : EnvItem),
      (formatEnvStep w st env).trace =
        st.trace ++ [Call.apiGet (pyRender env.baseUrl) DEPLOYMENTS_URI
          (depCallHeaders st.store env)] := by
  refine ⟨?_, fun st env => rfl⟩
  exact fmt_foldl_store_get w envs
    { blocks := [headerBlock], store := store, trace := [] } r hr

/-- Claim C1: in the scenario world (input text "prod", one region returns
one environment with deployments in states Primary and Secondary), the
posted payload has exactly 1 header block, 1 section block and 2 action
blocks, whose button styles are "primary" and "danger". -/
theorem c1_scenario_blocks :
    (c1Posted.map fun m =>
      ((m.blocks.filter Block.isHeader).length,
       (m.blocks.filter Block.isSection).length,
       (m.blocks.filter Block.isActions).length)) = some (1, 1, 2) ∧
    (c1Posted.map fun m => m.blocks.filterMap Block.styleOf) =
      some ["primary", "danger"] := by
  constructor <;> rfl

/-- Witness for C7 at the concrete input `none`. -/
theorem c7_usage_witness :
    ((none : Option String) = none ∨ (none : Option String) = some "") ∧
    slack_trigger wQuiet none =
      ({ responseType := "ephemeral", text := usageMsg, status := 200 }, []) :=
  ⟨Or.inl rfl, c7_usage wQuiet none (Or.inl rfl)⟩

/-- Witness for C4 in the quiet world, where aggregation finds nothing. -/
theorem c4_no_results_witness :
    ("prod" ≠ "" ∧ (aggregate wQuiet (envUri "prod")).results = []) ∧
    (slack_trigger wQuiet (some "prod") =
      ({ responseType := "ephemeral", text := noResultsMsg "prod", status := 200 },
        (aggregate wQuiet (envUri "prod")).trace) ∧
     ∀ c ∈ (slack_trigger wQuiet (some "prod")).2, c.isPost = false) :=
  ⟨⟨by decide, rfl⟩, c4_no_results wQuiet "prod" (by decide) rfl⟩

/-- Witness for C6 in the world with results but no webhook URL. -/
theorem c6_no_webhook_witness :
    ("prod" ≠ "" ∧ (aggregate wNoHook (envUri "prod")).results ≠ [] ∧
      pyFalsy (wNoHook.envVars "SLACK_WEBHOOK_URL") = true) ∧
    (slack_trigger wNoHook (some "prod") =
      ({ responseType := "ephemeral", text := misconfigMsg, status := 500 },
        (aggregate wNoHook (envUri "prod")).trace ++
          (format_slack_message wNoHook (aggregate wNoHook (envUri "prod")).store
            (aggregate wNoHook (envUri "prod")).results).2.2) ∧
     ∀ c ∈ (slack_trigger wNoHook (some "prod")).2, c.isPost = false) :=
  ⟨⟨by decide, by decide, rfl⟩,
    c6_no_webhook wNoHook "prod" (by decide) (by decide) rfl⟩

/-- Witness for C5 at the first configured region in the quiet world. -/
theorem c5_region_skipped_witness :
    (({ BaseUrl := "https://partners-us-east1.zeronetworks.com/api/v1/internal",
        KeyName := "us_east1_key", Region := "us-east1" } : ApiConfig) ∈ API_CONFIGS ∧
      pyFalsy (wQuiet.envVars "us_east1_key") = true) ∧
    ((∀ item ∈ (aggregate wQuiet "u").results, item.region ≠ some "us-east1") ∧
     (∀ (e : String) (hs : List (String × String)),
        Call.apiGet "https://partners-us-east1.zeronetworks.com/api/v1/internal" e hs ∉
          (aggregate wQuiet "u").trace)) :=
  ⟨⟨by decide, rfl⟩,
    c5_region_skipped wQuiet "u"
      { BaseUrl := "https://partners-us-east1.zeronetworks.com/api/v1/internal",
        KeyName := "us_east1_key", Region := "us-east1" } (by decide) rfl⟩

/-- Witness for C8 at the one item aggregated in the no-webhook world. -/
theorem c8_tagged_witness :
    ({ id := some "env-1", NameField := some "prod-env", nameField := none,
       region := some "us-east1",
       baseUrl := some "https://partners-us-east1.zeronetworks.com/api/v1/internal",
       headersRef := some 0 } : EnvItem) ∈ (aggregate wNoHook "u").results ∧
    taggedOk wNoHook (aggregate wNoHook "u").store
      { id := some "env-1", NameField := some "prod-env", nameField := none,
        region := some "us-east1",
        baseUrl := some "https://partners-us-east1.zeronetworks.com/api/v1/internal",
        headersRef := some 0 } :=
  ⟨by decide, c8_tagged wNoHook "u" _ (by decide)⟩

/-- Witness for C10 at a one-dict store and a one-item environment list. -/
theorem c10_headers_frame_witness :
    0 < (⟨[[("Authorization", "k")]]⟩ : HStore).dicts.length ∧
    (((format_slack_message wQuiet ⟨[[("Authorization", "k")]]⟩
        [{ id := some "e", NameField := none, nameField := none,
           region := none, baseUrl := none, headersRef := some 0 }]).2.1).get 0 =
      (⟨[[("Authorization", "k")]]⟩ : HStore).get 0 ∧
     ∀ (st : FmtState) (env : EnvItem),
      (formatEnvStep wQuiet st env).trace =
        st.trace ++ [Call.apiGet (pyRender env.baseUrl) DEPLOYMENTS_URI
          (depCallHeaders st.store env)]) :=
  ⟨by decide, c10_headers_frame wQuiet _ _ 0 (by decide)⟩
